import Mathlib

/-!
Shallow embedding of the slinkhard backend (Express + PostgreSQL e-commerce
storefront).  Database tables are modelled as lists of row structures; the
controllers' SQL statements become pure functions on a `DB` state.  Enumerated
columns keep the source's Spanish string values ('pendiente', 'pagado',
'cancelado', 'disponible', 'agotado', 'unico', ...), and monetary/stock values
are plain integers as in the JavaScript source.  The payment gateway
(MercadoPago) is an external collaborator and is passed in as a function
parameter wherever the source awaits one of its calls.
-/

/-- A row of the `users` table (schema.sql).  `password` holds the stored
bcrypt hash; `register` inserts the e-mail lower-cased. -/
structure User where
  id : Nat
  name : String
  email : String
  password : String
  phone : Option String
  address : Option String
  role : String
deriving Repr, DecidableEq

/-- A row of the `user_sessions` table.  Expiry is an absolute epoch-millis
instant as produced by `new Date(Date.now() + 7*24*60*60*1000)`. -/
structure Session where
  user_id : Nat
  token : String
  expires_at : Int
deriving Repr, DecidableEq

/-- A row of the `products` table; only the columns the payment/stock workflow
touches are kept.  `stock` is an `Int` because the JavaScript arithmetic
(`Math.max(0, item.stock - item.quantity)`) happens on plain numbers; the
schema constrains it to be non-negative. -/
structure Product where
  id : Nat
  name : String
  price : Int
  status : String
  product_type : String
  stock : Int
deriving Repr, DecidableEq

/-- A row of the `orders` table.  `payment_id` is the gateway payment id
written by the webhook handler (VARCHAR column, starts NULL). -/
structure Order where
  id : Nat
  user_id : Nat
  status : String
  total : Int
  shipping_address : String
  payment_id : Option String
deriving Repr, DecidableEq

/-- A row of the `order_items` table. -/
structure OrderItem where
  order_id : Nat
  product_id : Nat
  quantity : Int
  unit_price : Int
deriving Repr, DecidableEq

/-- The object `MercadoPagoService.processWebhook` builds from the gateway's
authoritative payment record: gateway payment id, gateway payment status and
the `external_reference` (the order id the preference was created for). -/
structure GatewayData where
  payment_id : String
  status : String
  external_reference : Nat
deriving Repr, DecidableEq

/-- The JSONB `gateway_response` column: either the serialized webhook
`paymentData` or the manual proof-of-payment object built by
`processManualPayment`. -/
inductive GatewayResponse where
  | fromWebhook (d : GatewayData)
  | manual (proof : String) (submitted_at : Int)
deriving Repr, DecidableEq

/-- A row of the `payments` table. -/
structure Payment where
  id : Nat
  order_id : Nat
  payment_method : String
  amount : Int
  currency : String
  status : String
  external_id : Option String
  gateway_response : Option GatewayResponse
  created_at : Int
deriving Repr, DecidableEq

/-- The whole persistent state: one list per table. -/
structure DB where
  users : List User
  products : List Product
  orders : List Order
  order_items : List OrderItem
  payments : List Payment
  sessions : List Session
deriving Repr, DecidableEq

/-! ## MercadoPagoService (config/mercadopago.js) -/

/-- The authoritative payment record fetched from the gateway by
`MercadoPagoService.getPayment` (fields the webhook path reads). -/
structure MPPayment where
  id : String
  status : String
  status_detail : String
  external_reference : Nat
  transaction_amount : Int
deriving Repr, DecidableEq

/-- An inbound webhook notification: an event type and an opaque data id. -/
structure Notification where
  ntype : String
  data_id : String
deriving Repr, DecidableEq

/-- `MercadoPagoService.isPaymentApproved`. -/
def isPaymentApproved (status : String) : Bool :=
  status == "approved"

/-- `MercadoPagoService.isPaymentRejected`: rejected or cancelled. -/
def isPaymentRejected (status : String) : Bool :=
  status == "rejected" || status == "cancelled"

/-- `MercadoPagoService.processWebhook`: for a `payment`-type notification it
re-fetches the authoritative payment from the gateway by id and projects the
fields the controller uses; any other notification type yields `none`.
`getPayment` stands for the gateway lookup. -/
def processWebhook (getPayment : String → MPPayment) (n : Notification) :
    Option GatewayData :=
  if n.ntype == "payment" then
    let info := getPayment n.data_id
    some { payment_id := info.id
           status := info.status
           external_reference := info.external_reference }
  else
    none

/-! ## PaymentController.handleWebhook (controllers/paymentController.js)

The handler runs one transaction whose statements are, in order:
`UPDATE payments ... WHERE external_id = $3 OR order_id = $4`, then (only when
the gateway status is approved) one `UPDATE products` per order item, then
`UPDATE orders`.  Each SQL statement becomes one `DB → DB` write below. -/

/-- Effect of the `UPDATE payments` statement on a single row: rows whose
`external_id` equals the gateway payment id *or* whose `order_id` equals the
notification's external reference get the new status and the raw payload. -/
def paymentUpdateFor (pd : GatewayData) (p : Payment) : Payment :=
  if p.external_id == some pd.payment_id || p.order_id == pd.external_reference then
    { p with status := pd.status
             gateway_response := some (GatewayResponse.fromWebhook pd) }
  else p

/-- The `UPDATE payments` write. -/
def updatePayments (pd : GatewayData) (db : DB) : DB :=
  { db with payments := db.payments.map (paymentUpdateFor pd) }

/-- A row of the `SELECT oi.product_id, oi.quantity, p.stock, p.product_type
FROM order_items oi JOIN products p ...` read: quantity together with the
product's stock and kind at read time. -/
structure ItemRow where
  product_id : Nat
  quantity : Int
  stock : Int
  product_type : String
deriving Repr, DecidableEq

/-- The order-items/products join for one order.  `find?` models the join on
the products primary key; items whose product row is missing drop out, as in
an inner JOIN. -/
def orderItemRows (db : DB) (oid : Nat) : List ItemRow :=
  (db.order_items.filter (fun oi => oi.order_id == oid)).filterMap (fun oi =>
    (db.products.find? (fun p => p.id == oi.product_id)).map (fun p =>
      { product_id := oi.product_id
        quantity := oi.quantity
        stock := p.stock
        product_type := p.product_type }))

/-- Effect of one iteration of the stock loop on a single product row:
`unico` products are forced to stock 0 / `agotado`; otherwise the new stock is
`Math.max(0, item.stock - item.quantity)` (computed from the stock read by the
join) and the status follows from whether that is zero. -/
def productUpdateFor (item : ItemRow) (p : Product) : Product :=
  if p.id == item.product_id then
    if item.product_type == "unico" then
      { p with status := "agotado", stock := 0 }
    else
      let newStock := max 0 (item.stock - item.quantity)
      { p with stock := newStock
               status := if newStock == 0 then "agotado" else "disponible" }
  else p

/-- One `UPDATE products` statement of the stock loop. -/
def applyItemWrite (item : ItemRow) (db : DB) : DB :=
  { db with products := db.products.map (productUpdateFor item) }

/-- The order status the handler derives from the gateway payment status:
approved ⇒ `pagado`, rejected/cancelled ⇒ `cancelado`, otherwise the initial
`pendiente`. -/
def derivedOrderStatus (paymentStatus : String) : String :=
  if isPaymentApproved paymentStatus then "pagado"
  else if isPaymentRejected paymentStatus then "cancelado"
  else "pendiente"

/-- Effect of the final `UPDATE orders` statement on a single order row. -/
def orderUpdateFor (pd : GatewayData) (o : Order) : Order :=
  if o.id == pd.external_reference then
    { o with status := derivedOrderStatus pd.status
             payment_id := some pd.payment_id }
  else o

/-- The `UPDATE orders` write. -/
def updateOrder (pd : GatewayData) (db : DB) : DB :=
  { db with orders := db.orders.map (orderUpdateFor pd) }

/-- The SQL statements of the webhook transaction, in execution order.  The
order-items read happens after the payment update, so the item rows are
computed from `updatePayments pd db`. -/
def webhookWrites (pd : GatewayData) (db : DB) : List (DB → DB) :=
  [updatePayments pd]
    ++ (if isPaymentApproved pd.status then
          (orderItemRows (updatePayments pd db) pd.external_reference).map applyItemWrite
        else [])
    ++ [updateOrder pd]

/-- Apply a list of writes in order. -/
def applyWrites (writes : List (DB → DB)) (db : DB) : DB :=
  writes.foldl (fun d w => w d) db

/-- The `transaction` helper of config/database.js: BEGIN, run the work,
COMMIT; on any error ROLLBACK and rethrow.  A failure is injected as
`failAfter = some k` (an exception thrown after `k` statements); ROLLBACK
discards every uncommitted write, so the failing branch yields the original
state and `false` (the rethrown error). -/
def transactionRun (writes : List (DB → DB)) (failAfter : Option Nat) (db : DB) :
    DB × Bool :=
  match failAfter with
  | none => (applyWrites writes db, true)
  | some _ => (db, false)

/-- `PaymentController.handleWebhook` with failure injection.  Returns the new
state and the HTTP status code: 200 acknowledges (also for non-payment or
unresolvable notifications, a deliberate no-op), 500 signals a retryable
failure after the transaction rolled back. -/
def handleWebhookF (getPayment : String → MPPayment) (failAfter : Option Nat)
    (db : DB) (n : Notification) : DB × Nat :=
  match processWebhook getPayment n with
  | none => (db, 200)
  | some pd =>
    match transactionRun (webhookWrites pd db) failAfter db with
    | (db2, true) => (db2, 200)
    | (_, false) => (db, 500)

/-- `PaymentController.handleWebhook` on the no-failure path. -/
def handleWebhook (getPayment : String → MPPayment) (db : DB) (n : Notification) :
    DB × Nat :=
  handleWebhookF getPayment none db n

/-- The state the webhook transaction commits when nothing fails. -/
def webhookReconcile (pd : GatewayData) (db : DB) : DB :=
  applyWrites (webhookWrites pd db) db

/-! ## AuthController (controllers/authController.js) and middleware/auth.js -/

/-- Seven days in milliseconds, the token/session validity used by register
and login. -/
def sevenDaysMs : Int := 7 * 24 * 60 * 60 * 1000

/-- The JavaScript `String.prototype.toLowerCase()` used on e-mails by
register and login: per-character lower-casing. -/
def toLowerStr (s : String) : String :=
  String.mk (s.data.map Char.toLower)

/-- Response of `AuthController.register`. -/
inductive RegisterResp where
  | emailTaken
  | registered (userId : Nat) (token : String)
deriving Repr, DecidableEq

/-- `AuthController.register`: looks the lower-cased e-mail up in `users`;
when taken it answers 400 without touching the database, otherwise it inserts
the user (e-mail stored lower-cased, role defaulting to customer, password
stored as `hash password`) plus one session row carrying the fresh token.
`hash` stands for bcrypt, `newUserId`/`newToken` for the generated id and
signed JWT, `now` for `Date.now()`. -/
def register (hash : String → String) (db : DB) (name email password : String)
    (phone address : Option String) (newUserId : Nat) (newToken : String)
    (now : Int) : DB × RegisterResp :=
  match db.users.find? (fun u => u.email == toLowerStr email) with
  | some _ => (db, RegisterResp.emailTaken)
  | none =>
    let user : User :=
      { id := newUserId, name := name, email := toLowerStr email
        password := hash password, phone := phone, address := address
        role := "customer" }
    let s : Session :=
      { user_id := newUserId, token := newToken, expires_at := now + sevenDaysMs }
    ({ db with users := db.users ++ [user], sessions := db.sessions ++ [s] },
     RegisterResp.registered newUserId newToken)

/-- Response of `AuthController.login`. -/
inductive LoginResp where
  | invalidCredentials
  | loggedIn (userId : Nat) (token : String)
deriving Repr, DecidableEq

/-- `AuthController.login`: finds the user by lower-cased e-mail, checks the
password against the stored hash (`verify` stands for `bcrypt.compare`), and
on success deletes every session of that user before inserting exactly one new
session.  Both failure cases answer the same generic invalid-credentials
error. -/
def login (verify : String → String → Bool) (db : DB) (email password : String)
    (newToken : String) (now : Int) : DB × LoginResp :=
  match db.users.find? (fun u => u.email == toLowerStr email) with
  | none => (db, LoginResp.invalidCredentials)
  | some user =>
    if verify password user.password then
      let remaining := db.sessions.filter (fun s => s.user_id != user.id)
      let s : Session :=
        { user_id := user.id, token := newToken, expires_at := now + sevenDaysMs }
      ({ db with sessions := remaining ++ [s] }, LoginResp.loggedIn user.id newToken)
    else (db, LoginResp.invalidCredentials)

/-- Outcome of the `authenticateToken` middleware.  All failure constructors
are 401 responses with the source's distinct messages. -/
inductive AuthResult where
  | missingToken
  | invalidToken
  | expiredToken
  | userNotFound
  | authenticated (u : User)
deriving Repr, DecidableEq

/-- `authenticateToken` (middleware/auth.js): requires a bearer token, then a
matching session row, then a non-expired session (expired rows are deleted on
detection), then JWT verification (`jwtVerify` yields the decoded user id, or
`none` when `jwt.verify` throws), then a live user row. -/
def authenticateToken (jwtVerify : String → Option Nat) (db : DB)
    (authToken : Option String) (now : Int) : DB × AuthResult :=
  match authToken with
  | none => (db, AuthResult.missingToken)
  | some token =>
    match db.sessions.find? (fun s => s.token == token) with
    | none => (db, AuthResult.invalidToken)
    | some session =>
      if now > session.expires_at then
        ({ db with sessions := db.sessions.filter (fun s => s.token != token) },
         AuthResult.expiredToken)
      else
        match jwtVerify token with
        | none => (db, AuthResult.invalidToken)
        | some uid =>
          match db.users.find? (fun u => u.id == uid) with
          | none => (db, AuthResult.userNotFound)
          | some u => (db, AuthResult.authenticated u)

/-! ## Remaining PaymentController endpoints -/

/-- What `MercadoPagoService.createPreference` returns on success. -/
structure PrefResult where
  preference_id : String
  init_point : String
  sandbox_init_point : String
deriving Repr, DecidableEq

/-- Response of `createPaymentPreference`: 404, 400 (order not payable),
500 (gateway error surfaced generically), or 200 with the preference data. -/
inductive PrefResp where
  | notFound
  | invalidState
  | processingError
  | success (preference_id init_point sandbox_init_point : String)
deriving Repr, DecidableEq

/-- `PaymentController.createPaymentPreference`: loads the caller's order
(`WHERE o.id = $1 AND o.user_id = $2`), 404 when absent; 400 unless its status
is `pendiente`; asks the gateway for a preference (`createPreference` is the
gateway call's outcome; a throw is caught and answered 500); on success
inserts a Payment row (method mercadopago, amount = the order's stored total,
currency ARS, status pending, external id = the preference id) and returns the
hosted-payment-page data. -/
def createPaymentPreference (createPreference : Except Unit PrefResult) (db : DB)
    (userId order_id : Nat) (newPaymentId : Nat) (now : Int) : DB × PrefResp :=
  match db.orders.find? (fun o => o.id == order_id && o.user_id == userId) with
  | none => (db, PrefResp.notFound)
  | some o =>
    if o.status != "pendiente" then (db, PrefResp.invalidState)
    else
      match createPreference with
      | Except.error _ => (db, PrefResp.processingError)
      | Except.ok pref =>
        let p : Payment :=
          { id := newPaymentId, order_id := order_id
            payment_method := "mercadopago", amount := o.total, currency := "ARS"
            status := "pending", external_id := some pref.preference_id
            gateway_response := none, created_at := now }
        ({ db with payments := db.payments ++ [p] },
         PrefResp.success pref.preference_id pref.init_point pref.sandbox_init_point)

/-- The projection `checkPaymentStatus` answers with. -/
structure PaymentStatusView where
  payment_id : Nat
  status : String
  amount : Int
  currency : String
  order_status : String
deriving Repr, DecidableEq

/-- Response of `checkPaymentStatus`. -/
inductive StatusResp where
  | notFound
  | found (v : PaymentStatusView)
deriving Repr, DecidableEq

/-- The `payments JOIN orders ON p.order_id = o.id WHERE p.order_id = $1 AND
o.user_id = $2` read: each payment is joined to its order via the orders
primary key and kept when the order id and owner match. -/
def paymentJoinRows (db : DB) (order_id userId : Nat) : List (Payment × Order) :=
  db.payments.filterMap (fun p =>
    (db.orders.find? (fun o => o.id == p.order_id)).bind (fun o =>
      if p.order_id == order_id && o.user_id == userId then some (p, o) else none))

/-- `ORDER BY p.created_at DESC LIMIT 1`: a row with maximal `created_at`
(ties are broken arbitrarily by the store; this model keeps the earlier
row). -/
def latestBy : List (Payment × Order) → Option (Payment × Order)
  | [] => none
  | r :: rest =>
    match latestBy rest with
    | none => some r
    | some b => if b.1.created_at > r.1.created_at then some b else some r

/-- `PaymentController.checkPaymentStatus`: a pure read — the most recent
payment of the caller's order, or 404 when the join is empty. -/
def checkPaymentStatus (db : DB) (userId order_id : Nat) : DB × StatusResp :=
  match latestBy (paymentJoinRows db order_id userId) with
  | none => (db, StatusResp.notFound)
  | some (p, o) =>
    (db, StatusResp.found
      { payment_id := p.id, status := p.status, amount := p.amount
        currency := p.currency, order_status := o.status })

/-- A manual-payment request body.  The source destructures only `order_id`,
`payment_method` and `payment_proof`; `amount` and `status` model extra
client-supplied fields that the handler never reads. -/
structure ManualPaymentReq where
  order_id : Nat
  payment_method : String
  payment_proof : String
  amount : Int
  status : String
deriving Repr, DecidableEq

/-- Response of `processManualPayment`. -/
inductive ManualResp where
  | notFound
  | submitted (payment_id : Nat) (status : String)
deriving Repr, DecidableEq

/-- `PaymentController.processManualPayment`: requires a caller-owned order in
status `pendiente` (`WHERE id = $1 AND user_id = $2 AND status = $3`), else
404; then inserts a Payment whose amount is the order's stored total and whose
status is `pending`, with the proof kept in `gateway_response`. -/
def processManualPayment (db : DB) (userId : Nat) (req : ManualPaymentReq)
    (newPaymentId : Nat) (now : Int) : DB × ManualResp :=
  match db.orders.find? (fun o =>
      o.id == req.order_id && o.user_id == userId && o.status == "pendiente") with
  | none => (db, ManualResp.notFound)
  | some o =>
    let p : Payment :=
      { id := newPaymentId, order_id := req.order_id
        payment_method := req.payment_method, amount := o.total, currency := "ARS"
        status := "pending", external_id := none
        gateway_response := some (GatewayResponse.manual req.payment_proof now)
        created_at := now }
    ({ db with payments := db.payments ++ [p] },
     ManualResp.submitted newPaymentId "pending")

/-! ## Helper lemmas -/

theorem updatePayments_products (pd : GatewayData) (db : DB) :
    (updatePayments pd db).products = db.products := rfl

theorem updatePayments_orders (pd : GatewayData) (db : DB) :
    (updatePayments pd db).orders = db.orders := rfl

theorem updatePayments_order_items (pd : GatewayData) (db : DB) :
    (updatePayments pd db).order_items = db.order_items := rfl

theorem applyItemWrite_orders (it : ItemRow) (db : DB) :
    (applyItemWrite it db).orders = db.orders := rfl

theorem applyItemWrite_payments (it : ItemRow) (db : DB) :
    (applyItemWrite it db).payments = db.payments := rfl

theorem updateOrder_products (pd : GatewayData) (db : DB) :
    (updateOrder pd db).products = db.products := rfl

theorem updateOrder_payments (pd : GatewayData) (db : DB) :
    (updateOrder pd db).payments = db.payments := rfl

theorem applyWrites_append (l1 l2 : List (DB → DB)) (db : DB) :
    applyWrites (l1 ++ l2) db = applyWrites l2 (applyWrites l1 db) := by
  simp [applyWrites, List.foldl_append]

theorem applyWrites_cons (w : DB → DB) (l : List (DB → DB)) (db : DB) :
    applyWrites (w :: l) db = applyWrites l (w db) := rfl

theorem applyWrites_nil (db : DB) : applyWrites [] db = db := rfl

/-- The stock loop only touches the `products` table, and its effect on that
table is a fold of per-row updates. -/
theorem applyWrites_itemWrites_products (rows : List ItemRow) (db : DB) :
    (applyWrites (rows.map applyItemWrite) db).products =
      rows.foldl (fun ps it => ps.map (productUpdateFor it)) db.products := by
  induction rows generalizing db with
  | nil => rfl
  | cons r rest ih =>
    simp only [List.map_cons, applyWrites_cons, List.foldl_cons]
    exact ih (applyItemWrite r db)

theorem applyWrites_itemWrites_orders (rows : List ItemRow) (db : DB) :
    (applyWrites (rows.map applyItemWrite) db).orders = db.orders := by
  induction rows generalizing db with
  | nil => rfl
  | cons r rest ih =>
    simp only [List.map_cons, applyWrites_cons]
    rw [ih (applyItemWrite r db), applyItemWrite_orders]

theorem applyWrites_itemWrites_payments (rows : List ItemRow) (db : DB) :
    (applyWrites (rows.map applyItemWrite) db).payments = db.payments := by
  induction rows generalizing db with
  | nil => rfl
  | cons r rest ih =>
    simp only [List.map_cons, applyWrites_cons]
    rw [ih (applyItemWrite r db), applyItemWrite_payments]

/-- Folding whole-table updates equals updating each row by the fold. -/
theorem foldl_map_productUpdate (rows : List ItemRow) (ps : List Product) :
    rows.foldl (fun ps it => ps.map (productUpdateFor it)) ps =
      ps.map (fun p => rows.foldl (fun q it => productUpdateFor it q) p) := by
  induction rows generalizing ps with
  | nil => simp
  | cons r rest ih =>
    simp only [List.foldl_cons]
    rw [ih (ps.map (productUpdateFor r)), List.map_map]
    rfl

theorem productUpdateFor_id (it : ItemRow) (p : Product) :
    (productUpdateFor it p).id = p.id := by
  unfold productUpdateFor
  split
  · split <;> rfl
  · rfl

theorem productUpdateFor_of_ne (it : ItemRow) (p : Product)
    (h : p.id ≠ it.product_id) : productUpdateFor it p = p := by
  unfold productUpdateFor
  simp [h]

theorem foldl_productUpdate_of_not_mem (rows : List ItemRow) (p : Product)
    (h : ∀ it ∈ rows, p.id ≠ it.product_id) :
    rows.foldl (fun q it => productUpdateFor it q) p = p := by
  induction rows with
  | nil => rfl
  | cons r rest ih =>
    simp only [List.foldl_cons]
    rw [productUpdateFor_of_ne r p (h r (List.mem_cons_self r rest))]
    exact ih (fun it hit => h it (List.mem_cons_of_mem r hit))

/-- When each product id occurs at most once among the item rows, the fold of
per-item updates acts on a product exactly through its own item. -/
theorem foldl_productUpdate_single (rows : List ItemRow) (r : ItemRow)
    (p : Product) (hnodup : (rows.map ItemRow.product_id).Nodup)
    (hr : r ∈ rows) (hid : p.id = r.product_id) :
    rows.foldl (fun q it => productUpdateFor it q) p = productUpdateFor r p := by
  induction rows with
  | nil => cases hr
  | cons a rest ih =>
    simp only [List.map_cons, List.nodup_cons] at hnodup
    rcases List.mem_cons.mp hr with hra | hrr
    · subst hra
      simp only [List.foldl_cons]
      apply foldl_productUpdate_of_not_mem
      intro it hit
      rw [productUpdateFor_id, hid]
      intro hcontra
      exact hnodup.1 (hcontra ▸ List.mem_map_of_mem ItemRow.product_id hit)
    · have hane : p.id ≠ a.product_id := by
        rw [hid]
        intro hcontra
        exact hnodup.1 (hcontra ▸ List.mem_map_of_mem ItemRow.product_id hrr)
      simp only [List.foldl_cons]
      rw [productUpdateFor_of_ne a p hane]
      exact ih hnodup.2 hrr

/-- `find?` on a key-distinct list finds exactly the member with that key. -/
theorem find?_key_of_nodup {α : Type} (key : α → Nat) (l : List α)
    (hnodup : (l.map key).Nodup) (a : α) (ha : a ∈ l) :
    l.find? (fun x => key x == key a) = some a := by
  induction l with
  | nil => cases ha
  | cons b rest ih =>
    simp only [List.map_cons, List.nodup_cons] at hnodup
    rcases List.mem_cons.mp ha with hab | har
    · subst hab
      simp [List.find?_cons]
    · have hne : key b ≠ key a := by
        intro hcontra
        exact hnodup.1 (hcontra ▸ List.mem_map_of_mem key har)
    -- the head does not match, so the search continues in the tail
      rw [List.find?_cons]
      have : (key b == key a) = false := beq_eq_false_iff_ne.mpr hne
      rw [this]
      exact ih hnodup.2 har

/-- A `filterMap` whose values reproduce a key of their origin yields a
key-list that is a sublist of the origin's key-list. -/
theorem map_filterMap_sublist {α β γ : Type} (f : α → Option β) (g : β → γ)
    (k : α → γ) (l : List α) (h : ∀ a b, f a = some b → g b = k a) :
    ((l.filterMap f).map g).Sublist (l.map k) := by
  induction l with
  | nil => simp
  | cons a rest ih =>
    cases hfa : f a with
    | none =>
      simp only [List.filterMap_cons, hfa, List.map_cons]
      exact ih.cons (k a)
    | some b =>
      simp only [List.filterMap_cons, hfa, List.map_cons]
      rw [h a b hfa]
      exact ih.cons₂ (k a)

/-- The webhook transaction is the payment update, then the stock loop (on
the approved path), then the order update. -/
theorem webhookReconcile_eq (pd : GatewayData) (db : DB) :
    webhookReconcile pd db =
      updateOrder pd
        (applyWrites
          (if isPaymentApproved pd.status then
             (orderItemRows (updatePayments pd db) pd.external_reference).map applyItemWrite
           else [])
          (updatePayments pd db)) := by
  unfold webhookReconcile webhookWrites
  rw [applyWrites_append, applyWrites_append]
  rfl

theorem webhookReconcile_payments (pd : GatewayData) (db : DB) :
    (webhookReconcile pd db).payments = db.payments.map (paymentUpdateFor pd) := by
  rw [webhookReconcile_eq, updateOrder_payments]
  cases h : isPaymentApproved pd.status with
  | false => simp only [h, Bool.false_eq_true, if_false, applyWrites_nil]; rfl
  | true =>
    simp only [h, if_true]
    rw [applyWrites_itemWrites_payments]
    rfl

theorem webhookReconcile_orders (pd : GatewayData) (db : DB) :
    (webhookReconcile pd db).orders = db.orders.map (orderUpdateFor pd) := by
  rw [webhookReconcile_eq]
  show ((applyWrites _ (updatePayments pd db)).orders.map (orderUpdateFor pd)) = _
  cases h : isPaymentApproved pd.status with
  | false => simp only [h, Bool.false_eq_true, if_false, applyWrites_nil]; rfl
  | true =>
    simp only [h, if_true]
    rw [applyWrites_itemWrites_orders]
    rfl

theorem webhookReconcile_products_approved (pd : GatewayData) (db : DB)
    (h : isPaymentApproved pd.status = true) :
    (webhookReconcile pd db).products =
      db.products.map (fun p =>
        (orderItemRows db pd.external_reference).foldl
          (fun q it => productUpdateFor it q) p) := by
  rw [webhookReconcile_eq, updateOrder_products]
  simp only [h, if_true]
  rw [applyWrites_itemWrites_products, updatePayments_products]
  have hrows : orderItemRows (updatePayments pd db) pd.external_reference =
      orderItemRows db pd.external_reference := rfl
  rw [hrows, foldl_map_productUpdate]

theorem webhookReconcile_products_not_approved (pd : GatewayData) (db : DB)
    (h : isPaymentApproved pd.status = false) :
    (webhookReconcile pd db).products = db.products := by
  rw [webhookReconcile_eq, updateOrder_products]
  simp only [h, Bool.false_eq_true, if_false, applyWrites_nil]
  rfl

/-- On the no-failure path a resolvable payment notification commits the full
reconciliation and acknowledges with 200. -/
theorem handleWebhook_eq_reconcile (gp : String → MPPayment) (n : Notification)
    (db : DB) (pd : GatewayData) (h : processWebhook gp n = some pd) :
    handleWebhook gp db n = (webhookReconcile pd db, 200) := by
  simp [handleWebhook, handleWebhookF, transactionRun, h, webhookReconcile]

/-- C1: when `handleWebhook` resolves an approved payment for an order, every
line item's product is updated: a `unico` product is forced to stock 0 and
status `agotado`; any other kind gets stock `max 0 (previous - quantity)` and
status `agotado` exactly when that is 0, else `disponible`.  The primary-key
hypotheses say products have distinct ids and the order's items reference
distinct products. -/
theorem stock_update_on_approved_payment
    (gp : String → MPPayment) (n : Notification) (db : DB) (pd : GatewayData)
    (hpd : processWebhook gp n = some pd)
    (happr : pd.status = "approved")
    (oi : OrderItem) (hoi : oi ∈ db.order_items)
    (hoid : oi.order_id = pd.external_reference)
    (p : Product) (hp : p ∈ db.products) (hpid : p.id = oi.product_id)
    (hnodupP : (db.products.map Product.id).Nodup)
    (hnodupI : ((db.order_items.filter
        (fun x => x.order_id == pd.external_reference)).map OrderItem.product_id).Nodup) :
    ∃ p' ∈ (handleWebhook gp db n).1.products, p'.id = p.id ∧
      (if p.product_type = "unico" then p'.stock = 0 ∧ p'.status = "agotado"
       else p'.stock = max 0 (p.stock - oi.quantity) ∧
         p'.status = (if max 0 (p.stock - oi.quantity) = 0 then "agotado"
                      else "disponible")) := by
  rw [handleWebhook_eq_reconcile gp n db pd hpd]
  have happrB : isPaymentApproved pd.status = true := by
    simp [isPaymentApproved, happr]
  rw [webhookReconcile_products_approved pd db happrB]
  have hfind : db.products.find? (fun q => q.id == oi.product_id) = some p := by
    have h := find?_key_of_nodup Product.id db.products hnodupP p hp
    rw [← hpid]
    exact h
  set r : ItemRow :=
    { product_id := oi.product_id, quantity := oi.quantity
      stock := p.stock, product_type := p.product_type } with hr
  have hrmem : r ∈ orderItemRows db pd.external_reference := by
    unfold orderItemRows
    refine List.mem_filterMap.mpr ⟨oi, List.mem_filter.mpr ⟨hoi, ?_⟩, ?_⟩
    · simp [hoid]
    · rw [hfind]
      rfl
  have hnodupR : ((orderItemRows db pd.external_reference).map
      ItemRow.product_id).Nodup := by
    refine List.Sublist.nodup ?_ hnodupI
    unfold orderItemRows
    refine map_filterMap_sublist _ ItemRow.product_id OrderItem.product_id _ ?_
    intro a b hab
    cases hfa : db.products.find? (fun q => q.id == a.product_id) with
    | none => rw [hfa] at hab; cases hab
    | some q => rw [hfa] at hab; cases hab; rfl
  refine ⟨(orderItemRows db pd.external_reference).foldl
      (fun q it => productUpdateFor it q) p,
    List.mem_map_of_mem _ hp, ?_⟩
  rw [foldl_productUpdate_single _ r p hnodupR hrmem (by rw [hpid, hr])]
  constructor
  · exact productUpdateFor_id r p
  · by_cases hu : p.product_type = "unico"
    · simp [productUpdateFor, hr, hpid, hu]
    · simp only [productUpdateFor, hr, hpid, beq_self_eq_true, if_true, hu,
        if_false]
      have : (p.product_type == "unico") = false := beq_eq_false_iff_ne.mpr hu
      simp only [this, Bool.false_eq_true, if_false]
      exact ⟨trivial, by simp [beq_iff_eq]⟩

/-! ## Concrete fixtures for instance theorems -/

/-- A normal-kind product with stock 5. -/
def prodExample : Product :=
  { id := 10, name := "PS5", price := 420000, status := "disponible"
    product_type := "normal", stock := 5 }

/-- A line item ordering quantity 3 of `prodExample` for order 1. -/
def oiExample : OrderItem :=
  { order_id := 1, product_id := 10, quantity := 3, unit_price := 420000 }

/-- One pending order for one product (stock 5, quantity 3) with one pending
payment row. -/
def dbExample : DB :=
  { users := []
    products := [prodExample]
    orders := [{ id := 1, user_id := 1, status := "pendiente", total := 1260000
                 shipping_address := "addr", payment_id := none }]
    order_items := [oiExample]
    payments := [{ id := 1, order_id := 1, payment_method := "mercadopago"
                   amount := 1260000, currency := "ARS", status := "pending"
                   external_id := some "pref1", gateway_response := none
                   created_at := 0 }]
    sessions := [] }

/-- A gateway whose authoritative status for any payment id is approved, with
external reference order 1. -/
def gpApproved : String → MPPayment := fun _ =>
  { id := "777", status := "approved", status_detail := "accredited"
    external_reference := 1, transaction_amount := 1260000 }

/-- A gateway that resolves the payment as rejected. -/
def gpRejected : String → MPPayment := fun _ =>
  { id := "777", status := "rejected", status_detail := "cc_rejected"
    external_reference := 1, transaction_amount := 1260000 }

/-- A payment-type webhook notification for gateway payment 777. -/
def notifPayment : Notification := { ntype := "payment", data_id := "777" }

/-- What `processWebhook` resolves `notifPayment` to under `gpApproved`. -/
def pdApproved : GatewayData :=
  { payment_id := "777", status := "approved", external_reference := 1 }

/-- Witness for the C1 theorem: a normal product with stock 5 and an approved
payment for quantity 3 ends at stock 2, status `disponible`. -/
theorem stock_update_on_approved_payment_witness :
    pdApproved.status = "approved" ∧
    ∃ p' ∈ (handleWebhook gpApproved dbExample notifPayment).1.products,
      p'.id = prodExample.id ∧
      (if prodExample.product_type = "unico" then
         p'.stock = 0 ∧ p'.status = "agotado"
       else p'.stock = max 0 (prodExample.stock - oiExample.quantity) ∧
         p'.status = (if max 0 (prodExample.stock - oiExample.quantity) = 0
                      then "agotado" else "disponible")) :=
  ⟨rfl,
   stock_update_on_approved_payment gpApproved notifPayment dbExample pdApproved
     (by decide) rfl oiExample (by decide) rfl prodExample (by decide) rfl
     (by decide) (by decide)⟩

/-- C2: the code is not idempotent.  Delivering the same approved webhook to
`dbExample` once leaves stock 2; delivering it a second time decrements again
and leaves stock 0. -/
theorem webhook_double_delivery_decrements_twice :
    ((handleWebhook gpApproved dbExample notifPayment).1.products.map
        Product.stock = [2]) ∧
    ((handleWebhook gpApproved
        (handleWebhook gpApproved dbExample notifPayment).1
        notifPayment).1.products.map Product.stock = [0]) := by
  decide

theorem orderUpdateFor_id (pd : GatewayData) (o : Order) :
    (orderUpdateFor pd o).id = o.id := by
  unfold orderUpdateFor
  split <;> rfl

/-- The status chain of the handler, written as the spec's mapping. -/
theorem derivedOrderStatus_eq (s : String) :
    derivedOrderStatus s =
      if s = "approved" then "pagado"
      else if s = "rejected" ∨ s = "cancelled" then "cancelado"
      else "pendiente" := by
  unfold derivedOrderStatus isPaymentApproved isPaymentRejected
  simp only [Bool.or_eq_true, beq_iff_eq]

/-- C3: the order's new status is derived from the gateway-resolved payment
status — approved ⇒ `pagado`, rejected/cancelled ⇒ `cancelado`, anything else
writes the initial `pendiente` — and a rejected resolution mutates no product
row. -/
theorem order_status_from_gateway
    (gp : String → MPPayment) (n : Notification) (db : DB) (pd : GatewayData)
    (hpd : processWebhook gp n = some pd) :
    (∀ o ∈ db.orders, ∃ o' ∈ (handleWebhook gp db n).1.orders, o'.id = o.id ∧
        o'.status = (if o.id = pd.external_reference then
            (if pd.status = "approved" then "pagado"
             else if pd.status = "rejected" ∨ pd.status = "cancelled" then
               "cancelado"
             else "pendiente")
          else o.status)) ∧
    (pd.status = "rejected" → (handleWebhook gp db n).1.products = db.products) := by
  simp only [handleWebhook_eq_reconcile gp n db pd hpd]
  constructor
  · intro o ho
    rw [webhookReconcile_orders]
    refine ⟨orderUpdateFor pd o, List.mem_map_of_mem _ ho,
      orderUpdateFor_id pd o, ?_⟩
    unfold orderUpdateFor
    by_cases hoid : o.id = pd.external_reference
    · simp [hoid, derivedOrderStatus_eq]
    · simp [hoid, beq_eq_false_iff_ne.mpr hoid]
  · intro hrej
    have h : isPaymentApproved pd.status = false := by
      simp [isPaymentApproved, hrej]
    exact webhookReconcile_products_not_approved pd db h

/-- Witness for order_status_from_gateway: a rejected gateway resolution moves
the single order of `dbExample` to `cancelado` and leaves the product table
untouched. -/
theorem order_status_from_gateway_witness :
    processWebhook gpRejected notifPayment =
      some { payment_id := "777", status := "rejected", external_reference := 1 } ∧
    ((handleWebhook gpRejected dbExample notifPayment).1.products =
      dbExample.products) := by
  refine ⟨by decide, ?_⟩
  exact (order_status_from_gateway gpRejected notifPayment dbExample
    { payment_id := "777", status := "rejected", external_reference := 1 }
    (by decide)).2 rfl

/-- C4: with a resolvable payment notification the handler either commits the
whole reconciliation (payment row, stock writes and order write together) and
acknowledges with 200, or — when any statement of the transaction throws —
leaves the database exactly as it was and answers 500, the retryable-failure
signal.  No third outcome exists, so no mix of the writes can persist. -/
theorem webhook_transaction_atomicity
    (gp : String → MPPayment) (failAfter : Option Nat) (db : DB)
    (n : Notification) (pd : GatewayData)
    (hpd : processWebhook gp n = some pd) :
    handleWebhookF gp failAfter db n = (webhookReconcile pd db, 200) ∨
    handleWebhookF gp failAfter db n = (db, 500) := by
  cases failAfter with
  | none =>
    left
    simp [handleWebhookF, transactionRun, hpd, webhookReconcile]
  | some k =>
    right
    simp [handleWebhookF, transactionRun, hpd]

/-- Witness for webhook_transaction_atomicity: a failure injected into the
transaction for the concrete approved webhook. -/
theorem webhook_transaction_atomicity_witness :
    processWebhook gpApproved notifPayment = some pdApproved ∧
    (handleWebhookF gpApproved (some 1) dbExample notifPayment =
        (webhookReconcile pdApproved dbExample, 200) ∨
     handleWebhookF gpApproved (some 1) dbExample notifPayment =
        (dbExample, 500)) :=
  ⟨by decide,
   webhook_transaction_atomicity gpApproved (some 1) dbExample notifPayment
     pdApproved (by decide)⟩

/-- First payment attempt for order 1 (preference prefA). -/
def payAttemptA : Payment :=
  { id := 1, order_id := 1, payment_method := "mercadopago", amount := 1260000
    currency := "ARS", status := "pending", external_id := some "prefA"
    gateway_response := none, created_at := 0 }

/-- Second payment attempt for the same order 1 (preference prefB). -/
def payAttemptB : Payment :=
  { id := 2, order_id := 1, payment_method := "mercadopago", amount := 1260000
    currency := "ARS", status := "pending", external_id := some "prefB"
    gateway_response := none, created_at := 5 }

/-- An order with two payment attempts. -/
def dbTwoPayments : DB :=
  { users := [], products := []
    orders := [{ id := 1, user_id := 1, status := "pendiente", total := 1260000
                 shipping_address := "addr", payment_id := none }]
    order_items := []
    payments := [payAttemptA, payAttemptB]
    sessions := [] }

/-- C5 counterexample: neither stored payment row carries the notification's
gateway payment id 777, yet the webhook updates the status of both rows of the
order — the claim that every Payment row other than the one matching the
gateway reference is left unchanged is false. -/
theorem payment_update_hits_sibling_rows :
    payAttemptA.external_id ≠ some pdApproved.payment_id ∧
    payAttemptB.external_id ≠ some pdApproved.payment_id ∧
    payAttemptA.status = "pending" ∧ payAttemptB.status = "pending" ∧
    (handleWebhook gpApproved dbTwoPayments notifPayment).1.payments.map
        Payment.status = ["approved", "approved"] := by
  decide

/-- C5 amended: the webhook payment update rewrites exactly those Payment
rows whose `external_id` equals the gateway payment id *or* whose `order_id`
equals the notification's external reference — so all payment attempts of the
same order are updated together — and any row matching neither condition is
left unchanged. -/
theorem payment_update_matching_rule
    (gp : String → MPPayment) (n : Notification) (db : DB) (pd : GatewayData)
    (hpd : processWebhook gp n = some pd) :
    ∀ p ∈ db.payments,
      ((p.external_id ≠ some pd.payment_id ∧ p.order_id ≠ pd.external_reference) →
        p ∈ (handleWebhook gp db n).1.payments) ∧
      ((p.external_id = some pd.payment_id ∨ p.order_id = pd.external_reference) →
        { p with status := pd.status
                 gateway_response := some (GatewayResponse.fromWebhook pd) }
          ∈ (handleWebhook gp db n).1.payments) := by
  simp only [handleWebhook_eq_reconcile gp n db pd hpd]
  intro p hp
  rw [webhookReconcile_payments]
  constructor
  · rintro ⟨h1, h2⟩
    have hfix : paymentUpdateFor pd p = p := by
      unfold paymentUpdateFor
      simp [beq_iff_eq, h1, h2]
    exact hfix ▸ List.mem_map_of_mem (paymentUpdateFor pd) hp
  · intro hor
    have hupd : paymentUpdateFor pd p =
        { p with status := pd.status
                 gateway_response := some (GatewayResponse.fromWebhook pd) } := by
      unfold paymentUpdateFor
      simp only [beq_iff_eq, Bool.or_eq_true]
      rw [if_pos hor]
    exact hupd ▸ List.mem_map_of_mem (paymentUpdateFor pd) hp

/-- Witness for payment_update_matching_rule: the sibling attempt of order 1
(matching by order id, not by external id) reappears updated. -/
theorem payment_update_matching_rule_witness :
    processWebhook gpApproved notifPayment = some pdApproved ∧
    { payAttemptB with
        status := pdApproved.status
        gateway_response := some (GatewayResponse.fromWebhook pdApproved) }
      ∈ (handleWebhook gpApproved dbTwoPayments notifPayment).1.payments :=
  ⟨by decide,
   (payment_update_matching_rule gpApproved notifPayment dbTwoPayments pdApproved
      (by decide) payAttemptB (by decide)).2 (Or.inr (by decide))⟩

/-- C6: createPaymentPreference answers 404 whenever no order row is both the
requested one and owned by the caller; answers the invalid-state error when
the caller's order is not `pendiente`; and only for a caller-owned pending
order does the gateway outcome matter, a successful preference inserting
exactly one Payment row with method mercadopago, the order's stored total,
status pending and external id equal to the gateway preference id. -/
theorem createPaymentPreference_spec
    (cp : Except Unit PrefResult) (db : DB) (userId order_id newPaymentId : Nat)
    (now : Int) :
    ((∀ o ∈ db.orders, o.id = order_id → o.user_id ≠ userId) →
      createPaymentPreference cp db userId order_id newPaymentId now =
        (db, PrefResp.notFound)) ∧
    (∀ o, db.orders.find? (fun x => x.id == order_id && x.user_id == userId) =
        some o → o.status ≠ "pendiente" →
      createPaymentPreference cp db userId order_id newPaymentId now =
        (db, PrefResp.invalidState)) ∧
    (∀ o pref,
      db.orders.find? (fun x => x.id == order_id && x.user_id == userId) =
        some o → o.status = "pendiente" → cp = Except.ok pref →
      createPaymentPreference cp db userId order_id newPaymentId now =
        ({ db with payments := db.payments ++
            [{ id := newPaymentId, order_id := order_id
               payment_method := "mercadopago", amount := o.total
               currency := "ARS", status := "pending"
               external_id := some pref.preference_id
               gateway_response := none, created_at := now }] },
         PrefResp.success pref.preference_id pref.init_point
           pref.sandbox_init_point)) := by
  refine ⟨?_, ?_, ?_⟩
  · intro h
    have hnone : db.orders.find?
        (fun x => x.id == order_id && x.user_id == userId) = none := by
      rw [List.find?_eq_none]
      intro o ho
      simp only [Bool.and_eq_true, beq_iff_eq, not_and]
      exact fun hid => h o ho hid
    simp [createPaymentPreference, hnone]
  · intro o hfind hst
    simp [createPaymentPreference, hfind, hst]
  · intro o pref hfind hst hcp
    simp [createPaymentPreference, hfind, hst, hcp]

/-- A caller-owned pending order, alone in the store. -/
def orderPendingEx : Order :=
  { id := 1, user_id := 1, status := "pendiente", total := 1260000
    shipping_address := "addr", payment_id := none }

/-- Store holding only `orderPendingEx`. -/
def dbOrderOnly : DB :=
  { users := [], products := [], orders := [orderPendingEx], order_items := []
    payments := [], sessions := [] }

/-- A successful gateway preference. -/
def prefEx : PrefResult :=
  { preference_id := "pref-42", init_point := "https://mp/init"
    sandbox_init_point := "https://mp/sandbox" }

/-- Witness for createPaymentPreference_spec: the success path on the concrete
pending order. -/
theorem createPaymentPreference_spec_witness :
    dbOrderOnly.orders.find? (fun x => x.id == 1 && x.user_id == 1) =
      some orderPendingEx ∧
    createPaymentPreference (Except.ok prefEx) dbOrderOnly 1 1 7 3 =
      ({ dbOrderOnly with payments := dbOrderOnly.payments ++
          [{ id := 7, order_id := 1, payment_method := "mercadopago"
             amount := orderPendingEx.total, currency := "ARS"
             status := "pending", external_id := some prefEx.preference_id
             gateway_response := none, created_at := 3 }] },
       PrefResp.success prefEx.preference_id prefEx.init_point
         prefEx.sandbox_init_point) :=
  ⟨by decide,
   (createPaymentPreference_spec (Except.ok prefEx) dbOrderOnly 1 1 7 3).2.2
     orderPendingEx prefEx (by decide) rfl rfl⟩

/-- Deleting a user's sessions leaves nothing of that user to filter back. -/
theorem filter_eq_after_delete (uid : Nat) (l : List Session) :
    (l.filter (fun s => s.user_id != uid)).filter (fun s => s.user_id == uid) =
      [] := by
  induction l with
  | nil => rfl
  | cons a rest ih =>
    by_cases h : a.user_id = uid
    · simp [List.filter_cons, h, ih]
    · simp [List.filter_cons, h, beq_eq_false_iff_ne.mpr h, ih]

/-- A token with no matching session row is rejected as invalid. -/
theorem authenticateToken_of_no_session (jwtVerify : String → Option Nat)
    (db : DB) (token : String) (now : Int)
    (h : db.sessions.find? (fun s => s.token == token) = none) :
    authenticateToken jwtVerify db (some token) now =
      (db, AuthResult.invalidToken) := by
  simp only [authenticateToken, h]

/-- C7: a successful login answers with the fresh token, leaves exactly one
session row for that user (the fresh one), and any token other than the fresh
one that only ever belonged to this user's sessions is afterwards rejected by
`authenticateToken` as invalid. -/
theorem single_session_after_login
    (verify : String → String → Bool) (db : DB)
    (email password newToken : String) (now : Int) (user : User)
    (hfind : db.users.find? (fun u => u.email == toLowerStr email) = some user)
    (hpw : verify password user.password = true) :
    (login verify db email password newToken now).2 =
      LoginResp.loggedIn user.id newToken ∧
    ((login verify db email password newToken now).1.sessions.filter
        (fun s => s.user_id == user.id)) =
      [{ user_id := user.id, token := newToken
         expires_at := now + sevenDaysMs }] ∧
    (∀ oldTok, oldTok ≠ newToken →
      (∀ s ∈ db.sessions, s.token = oldTok → s.user_id = user.id) →
      ∀ jwtVerify now2,
        (authenticateToken jwtVerify
            (login verify db email password newToken now).1
            (some oldTok) now2).2 = AuthResult.invalidToken) := by
  have hdb : (login verify db email password newToken now).1 =
      { db with sessions :=
          db.sessions.filter (fun s => s.user_id != user.id) ++
            [{ user_id := user.id, token := newToken
               expires_at := now + sevenDaysMs }] } := by
    simp [login, hfind, hpw]
  refine ⟨by simp [login, hfind, hpw], ?_, ?_⟩
  · rw [hdb]
    show ((db.sessions.filter (fun s => s.user_id != user.id) ++ _).filter
      (fun s => s.user_id == user.id)) = _
    rw [List.filter_append, filter_eq_after_delete]
    simp
  · intro oldTok hne hown jwtVerify now2
    have hfn : ((login verify db email password newToken now).1.sessions.find?
        (fun s => s.token == oldTok)) = none := by
      rw [hdb]
      show ((db.sessions.filter (fun s => s.user_id != user.id) ++
        [({ user_id := user.id, token := newToken
            expires_at := now + sevenDaysMs } : Session)]).find?
          (fun s => s.token == oldTok)) = none
      rw [List.find?_eq_none]
      intro s hs
      simp only [beq_iff_eq]
      rcases List.mem_append.mp hs with hsl | hsr
      · rcases List.mem_filter.mp hsl with ⟨hmem, hq⟩
        intro heq
        have huid : s.user_id = user.id := hown s hmem heq
        simp [huid] at hq
      · intro heq
        rcases List.mem_singleton.mp hsr with rfl
        exact hne heq.symm
    rw [authenticateToken_of_no_session jwtVerify
      (login verify db email password newToken now).1 oldTok now2 hfn]

/-- A registered customer. -/
def userEx : User :=
  { id := 1, name := "Ana", email := "ana@example.com", password := "hash"
    phone := none, address := none, role := "customer" }

/-- `userEx` with one live session from an earlier login. -/
def dbWithOldSession : DB :=
  { users := [userEx], products := [], orders := [], order_items := []
    payments := []
    sessions := [{ user_id := 1, token := "oldtok", expires_at := 99999 }] }

/-- A password check that accepts (bcrypt.compare succeeding). -/
def verifyAlways : String → String → Bool := fun _ _ => true

/-- A JWT verifier resolving every token to user 1. -/
def jwtConst : String → Option Nat := fun _ => some 1

/-- Witness for single_session_after_login: after a second login the first
login's token is rejected. -/
theorem single_session_after_login_witness :
    dbWithOldSession.users.find?
      (fun u => u.email == toLowerStr "ana@example.com") = some userEx ∧
    (authenticateToken jwtConst
        (login verifyAlways dbWithOldSession "ana@example.com" "pw" "newtok" 0).1
        (some "oldtok") 0).2 = AuthResult.invalidToken :=
  ⟨by decide,
   (single_session_after_login verifyAlways dbWithOldSession "ana@example.com"
      "pw" "newtok" 0 userEx (by decide) rfl).2.2 "oldtok" (by decide)
     (by decide) jwtConst 0⟩

/-- When the first list holds no match, `find?` over an append searches the
second list. -/
theorem find?_append_of_none {α : Type} (p : α → Bool) (l1 l2 : List α)
    (h : l1.find? p = none) : (l1 ++ l2).find? p = l2.find? p := by
  induction l1 with
  | nil => rfl
  | cons a rest ih =>
    rw [List.find?_cons] at h
    cases hpa : p a with
    | true => rw [hpa] at h; cases h
    | false =>
      rw [hpa] at h
      rw [List.cons_append, List.find?_cons, hpa]
      exact ih h

/-- C8: once an e-mail is registered (stored lower-cased), a second `register`
with the same e-mail in any casing fails with the duplicate-e-mail error and
writes no user row, no session row and no token. -/
theorem register_duplicate_email
    (hash : String → String) (db : DB)
    (n1 e1 p1 : String) (ph1 ad1 : Option String) (uid1 : Nat) (tok1 : String)
    (t1 : Int)
    (n2 e2 p2 : String) (ph2 ad2 : Option String) (uid2 : Nat) (tok2 : String)
    (t2 : Int)
    (hfree : db.users.find? (fun u => u.email == toLowerStr e1) = none)
    (hcase : toLowerStr e2 = toLowerStr e1) :
    (register hash db n1 e1 p1 ph1 ad1 uid1 tok1 t1).2 =
      RegisterResp.registered uid1 tok1 ∧
    register hash (register hash db n1 e1 p1 ph1 ad1 uid1 tok1 t1).1
        n2 e2 p2 ph2 ad2 uid2 tok2 t2 =
      ((register hash db n1 e1 p1 ph1 ad1 uid1 tok1 t1).1,
       RegisterResp.emailTaken) := by
  have hdb : (register hash db n1 e1 p1 ph1 ad1 uid1 tok1 t1).1 =
      { db with
          users := db.users ++
            [{ id := uid1, name := n1, email := toLowerStr e1
               password := hash p1, phone := ph1, address := ad1
               role := "customer" }]
          sessions := db.sessions ++
            [{ user_id := uid1, token := tok1, expires_at := t1 + sevenDaysMs }] } := by
    simp [register, hfree]
  refine ⟨by simp [register, hfree], ?_⟩
  rw [hdb]
  have hfind2 : ((db.users ++
      [({ id := uid1, name := n1, email := toLowerStr e1
          password := hash p1, phone := ph1, address := ad1
          role := "customer" } : User)]).find?
        (fun u => u.email == toLowerStr e2)) = some
      { id := uid1, name := n1, email := toLowerStr e1
        password := hash p1, phone := ph1, address := ad1
        role := "customer" } := by
    rw [hcase, find?_append_of_none _ _ _ hfree, List.find?_cons]
    simp
  simp [register, hfind2]

/-- A deterministic stand-in for the bcrypt hash in concrete instances. -/
def bcryptHash : String → String := fun s => "h:" ++ s

/-- An empty store. -/
def dbNoUsers : DB :=
  { users := [], products := [], orders := [], order_items := []
    payments := [], sessions := [] }

/-- Witness for register_duplicate_email: registering `A@B.com` and then
`a@b.com` fails the second time and leaves the store as after the first. -/
theorem register_duplicate_email_witness :
    toLowerStr "a@b.com" = toLowerStr "A@B.com" ∧
    register bcryptHash
        (register bcryptHash dbNoUsers "Ana" "A@B.com" "Secret1" none none 1
          "tok1" 0).1 "Bob" "a@b.com" "Secret2" none none 2 "tok2" 5 =
      ((register bcryptHash dbNoUsers "Ana" "A@B.com" "Secret1" none none 1
          "tok1" 0).1, RegisterResp.emailTaken) :=
  ⟨by decide,
   (register_duplicate_email bcryptHash dbNoUsers "Ana" "A@B.com" "Secret1"
      none none 1 "tok1" 0 "Bob" "a@b.com" "Secret2" none none 2 "tok2" 5
      (by decide) (by decide)).2⟩

/-- `latestBy` of a non-empty row list picks a member whose `created_at` is
maximal. -/
theorem latestBy_spec (rows : List (Payment × Order)) (hne : rows ≠ []) :
    ∃ r, latestBy rows = some r ∧ r ∈ rows ∧
      ∀ x ∈ rows, x.1.created_at ≤ r.1.created_at := by
  induction rows with
  | nil => cases hne rfl
  | cons a rest ih =>
    by_cases hr : rest = []
    · subst hr
      exact ⟨a, rfl, List.mem_singleton.mpr rfl, by
        intro x hx
        rcases List.mem_singleton.mp hx with rfl
        exact le_refl _⟩
    · obtain ⟨b, hb1, hb2, hb3⟩ := ih hr
      by_cases hgt : b.1.created_at > a.1.created_at
      · refine ⟨b, ?_, List.mem_cons_of_mem a hb2, ?_⟩
        · simp only [latestBy, hb1, hgt, if_true]
        · intro x hx
          rcases List.mem_cons.mp hx with rfl | hxr
          · exact le_of_lt hgt
          · exact hb3 x hxr
      · refine ⟨a, ?_, List.mem_cons_self a rest, ?_⟩
        · simp only [latestBy, hb1, hgt, if_false]
        · intro x hx
          rcases List.mem_cons.mp hx with rfl | hxr
          · exact le_refl _
          · exact le_trans (hb3 x hxr) (not_lt.mp hgt)

/-- Every joined row holds a payment of the requested order together with its
caller-owned order row. -/
theorem paymentJoinRows_mem (db : DB) (oid uid : Nat) (x : Payment × Order)
    (hx : x ∈ paymentJoinRows db oid uid) :
    x.1 ∈ db.payments ∧ x.1.order_id = oid ∧ x.2 ∈ db.orders ∧
      x.2.id = oid ∧ x.2.user_id = uid := by
  obtain ⟨p, hp, hfp⟩ := List.mem_filterMap.mp hx
  cases hfind : db.orders.find? (fun o => o.id == p.order_id) with
  | none => rw [hfind] at hfp; cases hfp
  | some o =>
    rw [hfind] at hfp
    simp only [Option.some_bind] at hfp
    by_cases hcond : (p.order_id == oid && o.user_id == uid) = true
    · rw [if_pos hcond] at hfp
      cases hfp
      simp only [Bool.and_eq_true, beq_iff_eq] at hcond
      have hoid : o.id = p.order_id := by
        have := List.find?_some hfind
        simpa [beq_iff_eq] using this
      exact ⟨hp, hcond.1, List.mem_of_find?_eq_some hfind,
        hoid.trans hcond.1, hcond.2⟩
    · rw [if_neg hcond] at hfp
      cases hfp

/-- Conversely, a payment of the order joined with the caller-owned order row
occurs among the joined rows (orders keyed by their primary key). -/
theorem paymentJoinRows_intro (db : DB) (oid uid : Nat) (o : Order)
    (p : Payment) (hnodupO : (db.orders.map Order.id).Nodup)
    (ho : o ∈ db.orders) (hoid : o.id = oid) (houser : o.user_id = uid)
    (hp : p ∈ db.payments) (hpo : p.order_id = oid) :
    (p, o) ∈ paymentJoinRows db oid uid := by
  refine List.mem_filterMap.mpr ⟨p, hp, ?_⟩
  have hkey : p.order_id = o.id := by rw [hpo, hoid]
  rw [hkey, find?_key_of_nodup Order.id db.orders hnodupO o ho]
  simp [hoid, houser]

/-- On a key-distinct list, members with equal keys coincide. -/
theorem eq_of_key_nodup {α : Type} (key : α → Nat) (l : List α)
    (h : (l.map key).Nodup) (a b : α) (ha : a ∈ l) (hb : b ∈ l)
    (hk : key a = key b) : a = b := by
  have h1 := find?_key_of_nodup key l h a ha
  have h2 := find?_key_of_nodup key l h b hb
  rw [hk] at h1
  rw [h1] at h2
  exact Option.some_injective _ h2

/-- C9: checkPaymentStatus never writes; it answers 404 when the order is not
the caller's (or no payment exists for it); and for a caller-owned order with
at least one payment it answers the projection of a payment of that order with
maximal `created_at` (the most recent one), joined with the order's status. -/
theorem checkPaymentStatus_spec (db : DB) (userId order_id : Nat) :
    ((checkPaymentStatus db userId order_id).1 = db) ∧
    ((∀ o ∈ db.orders, o.id = order_id → o.user_id ≠ userId) →
      (checkPaymentStatus db userId order_id).2 = StatusResp.notFound) ∧
    ((∀ p ∈ db.payments, p.order_id ≠ order_id) →
      (checkPaymentStatus db userId order_id).2 = StatusResp.notFound) ∧
    (∀ o p0, (db.orders.map Order.id).Nodup → o ∈ db.orders →
      o.id = order_id → o.user_id = userId →
      p0 ∈ db.payments → p0.order_id = order_id →
      ∃ p ∈ db.payments, p.order_id = order_id ∧
        (checkPaymentStatus db userId order_id).2 =
          StatusResp.found
            { payment_id := p.id, status := p.status, amount := p.amount
              currency := p.currency, order_status := o.status } ∧
        (∀ q ∈ db.payments, q.order_id = order_id →
          q.created_at ≤ p.created_at)) := by
  refine ⟨?_, ?_, ?_, ?_⟩
  · unfold checkPaymentStatus
    cases h : latestBy (paymentJoinRows db order_id userId) with
    | none => simp [h]
    | some r => simp [h]
  · intro h
    have hrows : paymentJoinRows db order_id userId = [] := by
      unfold paymentJoinRows
      rw [List.filterMap_eq_nil_iff]
      intro p hp
      cases hfind : db.orders.find? (fun o => o.id == p.order_id) with
      | none => simp
      | some o =>
        simp only [Option.some_bind]
        by_cases hpo : p.order_id = order_id
        · have hoid : o.id = p.order_id := by
            have := List.find?_some hfind
            simpa [beq_iff_eq] using this
          have hne : o.user_id ≠ userId :=
            h o (List.mem_of_find?_eq_some hfind) (hoid.trans hpo)
          simp [beq_eq_false_iff_ne.mpr hne]
        · simp [beq_eq_false_iff_ne.mpr hpo]
    simp [checkPaymentStatus, hrows, latestBy]
  · intro h
    have hrows : paymentJoinRows db order_id userId = [] := by
      unfold paymentJoinRows
      rw [List.filterMap_eq_nil_iff]
      intro p hp
      cases hfind : db.orders.find? (fun o => o.id == p.order_id) with
      | none => simp
      | some o =>
        simp only [Option.some_bind]
        simp [beq_eq_false_iff_ne.mpr (h p hp)]
    simp [checkPaymentStatus, hrows, latestBy]
  · intro o p0 hnodupO ho hoid houser hp0 hp0o
    have hmem := paymentJoinRows_intro db order_id userId o p0 hnodupO ho hoid
      houser hp0 hp0o
    obtain ⟨r, hr1, hr2, hr3⟩ := latestBy_spec _ (List.ne_nil_of_mem hmem)
    have hchar := paymentJoinRows_mem db order_id userId r hr2
    have hro : r.2 = o :=
      eq_of_key_nodup Order.id db.orders hnodupO r.2 o hchar.2.2.1 ho
        (by rw [hchar.2.2.2.1, hoid])
    refine ⟨r.1, hchar.1, hchar.2.1, ?_, ?_⟩
    · simp [checkPaymentStatus, hr1, hro]
    · intro q hq hqo
      exact hr3 (q, o)
        (paymentJoinRows_intro db order_id userId o q hnodupO ho hoid houser
          hq hqo)

/-- An order owned by user 1. -/
def orderOwned : Order :=
  { id := 1, user_id := 1, status := "pagado", total := 100
    shipping_address := "addr", payment_id := none }

/-- The older payment attempt for `orderOwned`. -/
def payOld : Payment :=
  { id := 1, order_id := 1, payment_method := "mercadopago", amount := 100
    currency := "ARS", status := "pending", external_id := none
    gateway_response := none, created_at := 5 }

/-- The newer payment attempt for `orderOwned`. -/
def payNew : Payment :=
  { id := 2, order_id := 1, payment_method := "mercadopago", amount := 100
    currency := "ARS", status := "approved", external_id := none
    gateway_response := none, created_at := 9 }

/-- `orderOwned` with two payment attempts. -/
def dbStatus : DB :=
  { users := [], products := [], orders := [orderOwned], order_items := []
    payments := [payOld, payNew], sessions := [] }

/-- Witness for checkPaymentStatus_spec: the caller-owned order with two
payments yields the most recent one, and the store is untouched. -/
theorem checkPaymentStatus_spec_witness :
    (checkPaymentStatus dbStatus 1 1).1 = dbStatus ∧
    ∃ p ∈ dbStatus.payments, p.order_id = 1 ∧
      (checkPaymentStatus dbStatus 1 1).2 =
        StatusResp.found
          { payment_id := p.id, status := p.status, amount := p.amount
            currency := p.currency, order_status := orderOwned.status } ∧
      (∀ q ∈ dbStatus.payments, q.order_id = 1 →
        q.created_at ≤ p.created_at) :=
  ⟨(checkPaymentStatus_spec dbStatus 1 1).1,
   (checkPaymentStatus_spec dbStatus 1 1).2.2.2 orderOwned payOld (by decide)
     (by decide) rfl rfl (by decide) rfl⟩

/-- C10: an accepted manual payment submission inserts exactly one Payment row
carrying the order's stored total and status pending, and the inserted row is
entirely independent of any client-supplied amount or status field: changing
those fields of the request changes nothing in the result. -/
theorem manual_payment_uses_stored_total
    (db : DB) (userId : Nat) (req : ManualPaymentReq) (newPaymentId : Nat)
    (now : Int) (o : Order)
    (hfind : db.orders.find? (fun x =>
        x.id == req.order_id && x.user_id == userId &&
          x.status == "pendiente") = some o) :
    ((processManualPayment db userId req newPaymentId now).1.payments =
      db.payments ++
        [{ id := newPaymentId, order_id := req.order_id
           payment_method := req.payment_method, amount := o.total
           currency := "ARS", status := "pending", external_id := none
           gateway_response := some
             (GatewayResponse.manual req.payment_proof now)
           created_at := now }]) ∧
    ((processManualPayment db userId req newPaymentId now).2 =
      ManualResp.submitted newPaymentId "pending") ∧
    (∀ a s, processManualPayment db userId
        { req with amount := a, status := s } newPaymentId now =
      processManualPayment db userId req newPaymentId now) := by
  refine ⟨?_, ?_, fun a s => rfl⟩
  · simp [processManualPayment, hfind]
  · simp [processManualPayment, hfind]

/-- A manual-payment request whose client-supplied amount and status disagree
with the stored order. -/
def manualReq : ManualPaymentReq :=
  { order_id := 1, payment_method := "transferencia"
    payment_proof := "proof.jpg", amount := 999, status := "approved" }

/-- Witness for manual_payment_uses_stored_total on the concrete pending
order: the response is pending and the client-supplied amount is ignored. -/
theorem manual_payment_uses_stored_total_witness :
    dbOrderOnly.orders.find? (fun x =>
        x.id == manualReq.order_id && x.user_id == 1 &&
          x.status == "pendiente") = some orderPendingEx ∧
    (processManualPayment dbOrderOnly 1 manualReq 9 4).2 =
      ManualResp.submitted 9 "pending" ∧
    processManualPayment dbOrderOnly 1
        { manualReq with amount := 5, status := "x" } 9 4 =
      processManualPayment dbOrderOnly 1 manualReq 9 4 :=
  ⟨by decide,
   (manual_payment_uses_stored_total dbOrderOnly 1 manualReq 9 4 orderPendingEx
      (by decide)).2.1,
   (manual_payment_uses_stored_total dbOrderOnly 1 manualReq 9 4 orderPendingEx
      (by decide)).2.2 5 "x"⟩
